import Mathlib

/-!
Shallow embedding of the incremental agent transcript renderer of
dspy-query-wizard: the part-rendering logic of the decomposed renderer
(`src/frontend/src/lib/AgentChat.svelte`) and of the inline renderer
(the unnamed single-file Svelte component), plus the submission handler
shared by both. JavaScript values are modelled by `JVal`; field presence
on a part record (`"input" in part`) is modelled by `Option JVal`, where
`some .vundefined` is a field that is present but `undefined`.
-/

/-- A JavaScript value, as far as the renderer inspects one: `undefined`,
`null`, booleans, numbers, strings and plain objects (an association list
of fields). Arrays are not needed by any branch the renderer takes. -/
inductive JVal where
  | vundefined : JVal
  | vnull : JVal
  | vbool : Bool → JVal
  | vnum : Int → JVal
  | vstr : String → JVal
  | vobj : List (String × JVal) → JVal

/-- JavaScript truthiness of a `JVal` (objects are always truthy). -/
def JVal.truthy : JVal → Bool
  | .vundefined => false
  | .vnull => false
  | .vbool b => b
  | .vnum n => n != 0
  | .vstr s => s != ""
  | .vobj _ => true

/-- Field lookup in an object's field list; a missing key reads as
`undefined`, as JavaScript property access does. -/
def jgetFields : List (String × JVal) → String → JVal
  | [], _ => .vundefined
  | (k, v) :: fs, key => if k = key then v else jgetFields fs key

/-- JavaScript property access `v.key`: defined on objects, `undefined`
on everything else. -/
def JVal.jget : JVal → String → JVal
  | .vobj fs, key => jgetFields fs key
  | _, _ => .vundefined

/-- JavaScript strict equality `v === s` against a string literal: true
exactly when `v` is that string. -/
def JVal.eqStr : JVal → String → Bool
  | .vstr t, s => t == s
  | _, _ => false

/-- JavaScript `String(v)` conversion for the values of `JVal`. -/
def jsToString : JVal → String
  | .vundefined => "undefined"
  | .vnull => "null"
  | .vbool true => "true"
  | .vbool false => "false"
  | .vnum n => toString n
  | .vstr s => s
  | .vobj _ => "[object Object]"

/-- JavaScript `s.startsWith(pre)`. -/
def jsStartsWith (s pre : String) : Bool :=
  pre.data.isPrefixOf s.data

/-- Replace the first occurrence of `pat` in a character list by `repl`;
the list is returned unchanged when `pat` does not occur. -/
def replaceFirstL (pat repl : List Char) : List Char → List Char
  | [] => []
  | c :: cs =>
    if pat.isPrefixOf (c :: cs) then repl ++ (c :: cs).drop pat.length
    else c :: replaceFirstL pat repl cs

/-- JavaScript `s.replace(pat, repl)` with a string pattern: only the
first occurrence is replaced. -/
def jsReplaceFirst (s pat repl : String) : String :=
  ⟨replaceFirstL pat.data repl.data s.data⟩

/-- Whitespace as trimmed by `String.prototype.trim` (the characters the
inputs of this application can contain). -/
def isJsWs (c : Char) : Bool :=
  c = ' ' || c = '\t' || c = '\n' || c = '\r'

/-- JavaScript `s.trim()`. -/
def jsTrim (s : String) : String :=
  ⟨((s.data.dropWhile isJsWs).reverse.dropWhile isJsWs).reverse⟩

/-- One message part as delivered by the transport. `ty` is the `type`
tag (a string by the transport's typing); every other field is optional:
`none` models a field that is not present on the record (`"f" in part`
is false), `some .vundefined` a field present with value `undefined`. -/
structure RawPart where
  ty : String
  text : JVal := .vundefined
  state : Option JVal := none
  input : Option JVal := none
  output : Option JVal := none
  errorText : Option JVal := none
  data : Option JVal := none

/-- Reading an optional field as a JavaScript expression does:
a missing field reads as `undefined`. -/
def getOpt (o : Option JVal) : JVal :=
  o.getD .vundefined

/-- The guard `"f" in part && part.f !== undefined`. -/
def isDefinedF : Option JVal → Bool
  | some .vundefined => false
  | some _ => true
  | none => false

/-- The guard `"f" in part && part.f` (presence plus truthiness). -/
def fieldTruthy : Option JVal → Bool
  | some v => v.truthy
  | none => false

/-- Content of the inline renderer's purple reasoning box. -/
inductive ReasoningLine where
  | thinkingLine : ReasoningLine
  | doneThinkingLine : ReasoningLine
  | callingToolLine : JVal → ReasoningLine
  | toolCompleteLine : JVal → ReasoningLine
  | rawDump : JVal → ReasoningLine
  | noContent : ReasoningLine

/-- One visual unit produced by a renderer. The first group are the
sub-components mounted by the decomposed renderer (`AgentChat.svelte`);
the `in...` constructors are the boxes of the inline renderer. Each
constructor carries exactly the data the corresponding markup displays. -/
inductive View where
  | textView : JVal → View
  | toolCallView : String → JVal → JVal → View
  | toolCalledView : String → JVal → View
  | toolResultView : String → JVal → View
  | toolErrorView : String → Option String → View
  | toolStateView : String → JVal → View
  | toolNoStateView : String → RawPart → View
  | reasoningView : String → Option String → JVal → View
  | unknownView : String → RawPart → View
  | inCallBox : String → Option JVal → View
  | inResultBox : String → Option JVal → View
  | inErrorBox : String → Option JVal → View
  | inOtherBox : String → JVal → View
  | inReasoningBox : ReasoningLine → View

/-- The tool name both renderers compute:
`part.type.replace("tool-", "")`. -/
def toolNameOf (ty : String) : String :=
  jsReplaceFirst ty "tool-" ""

/-- The `errorText` prop the decomposed renderer passes to
`ToolErrorPart`:
`"errorText" in part && part.errorText ? String(part.errorText) : undefined`. -/
def errDisplay (o : Option JVal) : Option String :=
  if fieldTruthy o then some (jsToString (getOpt o)) else none

/-- The error line of the inline renderer's red box, shown under
`{#if "errorText" in part && part.errorText}`. -/
def errLineI (o : Option JVal) : Option JVal :=
  if fieldTruthy o then some (getOpt o) else none

/-- The tool branch of the decomposed renderer (`AgentChat.svelte`,
template lines 94–128): an Invoking banner when the input is defined and
the state is not `output-available`, followed by the state-directed view;
a part with no `state` field falls to the `ToolNoStatePart` dump. -/
def renderToolD (p : RawPart) : List View :=
  match p.state with
  | some st =>
    (if isDefinedF p.input && !(st.eqStr "output-available") then
      [View.toolCallView (toolNameOf p.ty) (getOpt p.input) st]
     else []) ++
    (if st.eqStr "output-available" then
      (if isDefinedF p.input then
        [View.toolCalledView (toolNameOf p.ty) (getOpt p.input)]
       else []) ++
      (match p.output with
       | some ov => [View.toolResultView (toolNameOf p.ty) ov]
       | none => [])
     else if st.eqStr "output-error" then
      [View.toolErrorView (toolNameOf p.ty) (errDisplay p.errorText)]
     else if st.eqStr "streaming" || st.eqStr "done" then
      [View.toolStateView (toolNameOf p.ty) st]
     else [])
  | none => [View.toolNoStateView p.ty p]

/-- The `data-reasoning` branch of the decomposed renderer: rendered only
when `data` is present, truthy and an object; `status` falls back to
"unknown" when not a string, `toolName` to `undefined`. -/
def renderReasoningD (p : RawPart) : List View :=
  match p.data with
  | some (.vobj fs) =>
    [View.reasoningView
      (match (JVal.vobj fs).jget "status" with
       | .vstr s => s
       | _ => "unknown")
      (match (JVal.vobj fs).jget "toolName" with
       | .vstr s => some s
       | _ => none)
      (JVal.vobj fs)]
  | _ => []

/-- Rendering of one part by the decomposed renderer
(`AgentChat.svelte`): the type-tag dispatch of the template. -/
def renderPartD (p : RawPart) : List View :=
  if p.ty = "text" then [View.textView p.text]
  else if jsStartsWith p.ty "tool-" then renderToolD p
  else if p.ty = "data-reasoning" then renderReasoningD p
  else [View.unknownView p.ty p]

/-- The tool branch of the inline renderer (single-file version, template
lines 59–116): one box per state group; a part with no `state` field
renders nothing (the inline version has no `else` for that case). -/
def renderToolI (p : RawPart) : List View :=
  match p.state with
  | some st =>
    if st.eqStr "input-streaming" || st.eqStr "input-available" then
      [View.inCallBox (toolNameOf p.ty)
        (if isDefinedF p.input then some (getOpt p.input) else none)]
    else if st.eqStr "output-available" then
      [View.inResultBox (toolNameOf p.ty) p.output]
    else if st.eqStr "output-error" then
      [View.inErrorBox (toolNameOf p.ty) (errLineI p.errorText)]
    else
      [View.inOtherBox (toolNameOf p.ty) st]
  | none => []

/-- The `data-reasoning` branch of the inline renderer: the purple box is
always mounted; its content depends on `data.status`. -/
def renderReasoningI (p : RawPart) : List View :=
  [View.inReasoningBox
    (match p.data with
     | some (.vobj fs) =>
       if ((JVal.vobj fs).jget "status").eqStr "thinking" then
         .thinkingLine
       else if ((JVal.vobj fs).jget "status").eqStr "done_thinking" then
         .doneThinkingLine
       else if ((JVal.vobj fs).jget "status").eqStr "calling_tool" then
         .callingToolLine ((JVal.vobj fs).jget "toolName")
       else if ((JVal.vobj fs).jget "status").eqStr "tool_complete" then
         .toolCompleteLine ((JVal.vobj fs).jget "toolName")
       else .rawDump (JVal.vobj fs)
     | _ => .noContent)]

/-- Rendering of one part by the inline renderer (single-file version). -/
def renderPartI (p : RawPart) : List View :=
  if p.ty = "text" then [View.textView p.text]
  else if jsStartsWith p.ty "tool-" then renderToolI p
  else if p.ty = "data-reasoning" then renderReasoningI p
  else [View.unknownView p.ty p]

/-- The categories of §4.2 of the design: which kind of view a visual
unit is, used to compare the two renderers' outputs. -/
inductive AbsView where
  | invoking
  | completed
  | errored
  | intermediate
  | noState
  | textCat
  | reasoningCat
  | unknownCat
deriving DecidableEq

/-- Category of each concrete view. -/
def absOf : View → AbsView
  | .textView _ => .textCat
  | .toolCallView _ _ _ => .invoking
  | .toolCalledView _ _ => .completed
  | .toolResultView _ _ => .completed
  | .toolErrorView _ _ => .errored
  | .toolStateView _ _ => .intermediate
  | .toolNoStateView _ _ => .noState
  | .reasoningView _ _ _ => .reasoningCat
  | .unknownView _ _ => .unknownCat
  | .inCallBox _ _ => .invoking
  | .inResultBox _ _ => .completed
  | .inErrorBox _ _ => .errored
  | .inOtherBox _ _ => .intermediate
  | .inReasoningBox _ => .reasoningCat

/-- The extracted tool name a view displays, when it displays one. -/
def viewToolName : View → Option String
  | .toolCallView n _ _ => some n
  | .toolCalledView n _ => some n
  | .toolResultView n _ => some n
  | .toolErrorView n _ => some n
  | .toolStateView n _ => some n
  | .inCallBox n _ => some n
  | .inResultBox n _ => some n
  | .inErrorBox n _ => some n
  | .inOtherBox n _ => some n
  | _ => none

/-- The session state the submission handler touches: the input box, the
busy flag and the list of messages sent so far (what
`chat.sendMessage({ text })` has been called with). -/
structure ChatState where
  input : String
  isLoading : Bool
  sentMessages : List String

/-- `handleSubmit` (identical in both versions):
`if (input.trim() && !isLoading) { isLoading = true; chat.sendMessage({ text: input }); input = ""; }`. -/
def handleSubmit (st : ChatState) : ChatState :=
  if jsTrim st.input != "" && !st.isLoading then
    { input := "",
      isLoading := true,
      sentMessages := st.sentMessages ++ [st.input] }
  else st

/-- Strict equality against a string succeeds only on that string. -/
lemma eqStr_elim {v : JVal} {s : String} (h : JVal.eqStr v s = true) :
    v = JVal.vstr s := by
  cases v <;> simp_all [JVal.eqStr]

/-- Strict equality against a string fails on any other value. -/
lemma eqStr_false {v : JVal} {s : String} (h : v ≠ JVal.vstr s) :
    JVal.eqStr v s = false := by
  cases hq : JVal.eqStr v s
  · rfl
  · exact absurd (eqStr_elim hq) h

/-- A type tag with the tool prefix is not the `text` tag. -/
lemma ty_ne_text_of_tool (ty : String) (h : jsStartsWith ty "tool-" = true) :
    ty ≠ "text" := by
  intro he
  subst he
  exact absurd h (by decide)

/-- A list is a `isPrefixOf` of itself followed by anything. -/
lemma isPrefixOf_append_self (l t : List Char) :
    l.isPrefixOf (l ++ t) = true := by
  induction l with
  | nil => simp [List.isPrefixOf]
  | cons c cs ih => simp [List.isPrefixOf, ih]

/-- Dropping the length of a leading segment leaves the tail. -/
lemma drop_append_self (l t : List Char) : (l ++ t).drop l.length = t := by
  induction l with
  | nil => rfl
  | cons c cs ih => simp [ih]

/-- Replacing the first occurrence of a nonempty pattern in a string that
starts with that pattern replaces exactly the leading occurrence. -/
lemma replaceFirstL_leading (pat repl t : List Char) (h : pat ≠ []) :
    replaceFirstL pat repl (pat ++ t) = repl ++ t := by
  cases pat with
  | nil => exact absurd rfl h
  | cons c cs =>
    simp only [List.cons_append, replaceFirstL, List.isPrefixOf,
      isPrefixOf_append_self, beq_self_eq_true, Bool.true_and, if_true]
    have hd : (c :: (cs ++ t)).drop (c :: cs).length = t := by
      simp [drop_append_self cs t]
    simp [hd]

/-- Appending strings appends their character lists. -/
lemma string_data_append (a b : String) : (a ++ b).data = a.data ++ b.data := by
  cases a
  cases b
  rfl

/-- The name both renderers extract from a `tool-`-prefixed tag is
exactly the suffix after the prefix. -/
lemma toolNameOf_tool_append (s : String) : toolNameOf ("tool-" ++ s) = s := by
  unfold toolNameOf jsReplaceFirst
  rw [string_data_append]
  rw [show ("tool-" : String).data = ['t', 'o', 'o', 'l', '-'] from rfl]
  rw [replaceFirstL_leading _ _ _ (by decide)]
  rfl

/-- A string of the form `"tool-" ++ s` starts with the tool prefix. -/
lemma jsStartsWith_tool_append (s : String) :
    jsStartsWith ("tool-" ++ s) "tool-" = true := by
  unfold jsStartsWith
  rw [string_data_append]
  rw [show ("tool-" : String).data = ['t', 'o', 'o', 'l', '-'] from rfl]
  exact isPrefixOf_append_self _ _

/-- On a `tool-`-tagged part the decomposed renderer runs its tool
branch. -/
lemma renderPartD_tool (p : RawPart) (h : jsStartsWith p.ty "tool-" = true) :
    renderPartD p = renderToolD p := by
  unfold renderPartD
  rw [if_neg (ty_ne_text_of_tool p.ty h), h]
  rfl

/-- On a `tool-`-tagged part the inline renderer runs its tool branch. -/
lemma renderPartI_tool (p : RawPart) (h : jsStartsWith p.ty "tool-" = true) :
    renderPartI p = renderToolI p := by
  unfold renderPartI
  rw [if_neg (ty_ne_text_of_tool p.ty h), h]
  rfl

/-- A concrete tool part on which the two renderers diverge: input is
defined and the state is `output-error`. -/
def divergencePart : RawPart :=
  { ty := "tool-search",
    state := some (.vstr "output-error"),
    input := some (.vobj [("q", .vstr "x")]),
    errorText := some (.vstr "bad") }

/-- C4: the decomposed renderer and the inline renderer are behaviorally
divergent: on a tool part with a defined `input` and state
`output-error`, the decomposed version emits an Invoking view in front of
the Errored view, while the inline version emits the Errored view alone,
so the two produce different sequences of view categories. -/
theorem spec_c4_renderers_diverge :
    (renderPartD divergencePart).map absOf =
      [AbsView.invoking, AbsView.errored] ∧
    (renderPartI divergencePart).map absOf = [AbsView.errored] ∧
    (renderPartD divergencePart).map absOf ≠
      (renderPartI divergencePart).map absOf :=
  ⟨rfl, rfl, by decide⟩

/-- C8: a part whose type is not `text`, does not start with `tool-` and
is not `data-reasoning` is rendered, by both renderers, as a single
fallback view carrying the literal type tag and the whole original part
record, so the displayed payload is the input part itself. -/
theorem spec_c8_unknown_fallback (p : RawPart) (h1 : p.ty ≠ "text")
    (h2 : jsStartsWith p.ty "tool-" = false)
    (h3 : p.ty ≠ "data-reasoning") :
    renderPartD p = [View.unknownView p.ty p] ∧
    renderPartI p = [View.unknownView p.ty p] := by
  constructor
  · simp [renderPartD, h1, h2, h3]
  · simp [renderPartI, h1, h2, h3]

/-- Witness for C8 at the concrete part `{type: "step-start"}`. -/
theorem spec_c8_unknown_fallback_witness :
    renderPartD { ty := "step-start" } =
      [View.unknownView "step-start" { ty := "step-start" }] ∧
    renderPartI { ty := "step-start" } =
      [View.unknownView "step-start" { ty := "step-start" }] := by
  have h := spec_c8_unknown_fallback { ty := "step-start" }
    (by decide) (by decide) (by decide)
  exact ⟨h.1.trans rfl, h.2.trans rfl⟩

/-- C9: a submission with empty or whitespace-only input, or made while
the busy flag is set, is a no-op leaving the whole state (conversation,
input box, busy flag) unchanged; otherwise the busy flag is set, the
untrimmed input is sent as the message and the input box is cleared. -/
theorem spec_c9_submission (st : ChatState) :
    ((jsTrim st.input = "" ∨ st.isLoading = true) → handleSubmit st = st) ∧
    (jsTrim st.input ≠ "" → st.isLoading = false →
      (handleSubmit st).isLoading = true ∧
      (handleSubmit st).sentMessages = st.sentMessages ++ [st.input] ∧
      (handleSubmit st).input = "") := by
  constructor
  · intro h
    rcases h with h | h <;> simp [handleSubmit, h]
  · intro h1 h2
    simp [handleSubmit, h1, h2]

/-- Witness for C9: a whitespace-only submission and a busy submission
are no-ops; an accepted submission sends the message, sets the flag and
clears the input. -/
theorem spec_c9_submission_witness :
    handleSubmit { input := "  ", isLoading := false, sentMessages := [] } =
      { input := "  ", isLoading := false, sentMessages := [] } ∧
    handleSubmit { input := "hi", isLoading := true, sentMessages := ["a"] } =
      { input := "hi", isLoading := true, sentMessages := ["a"] } ∧
    (handleSubmit { input := "hi", isLoading := false, sentMessages := [] }
      ).sentMessages = ["hi"] ∧
    (handleSubmit { input := "hi", isLoading := false, sentMessages := [] }
      ).input = "" :=
  ⟨(spec_c9_submission _).1 (Or.inl (by decide)),
   (spec_c9_submission _).1 (Or.inr rfl),
   ((spec_c9_submission _).2 (by decide) rfl).2.1.trans rfl,
   ((spec_c9_submission _).2 (by decide) rfl).2.2⟩

/-- C10: a tool part in state `output-available` with no `output` field
renders without failing and with no output display: the decomposed
renderer shows only the input display (when the input is defined), the
inline renderer shows the result block with no output dump. -/
theorem spec_c10_missing_output (p : RawPart)
    (h1 : jsStartsWith p.ty "tool-" = true)
    (h2 : p.state = some (JVal.vstr "output-available"))
    (h3 : p.output = none) :
    renderPartD p =
      (if isDefinedF p.input then
        [View.toolCalledView (toolNameOf p.ty) (getOpt p.input)]
       else []) ∧
    renderPartI p = [View.inResultBox (toolNameOf p.ty) none] := by
  have e1 : JVal.eqStr (JVal.vstr "output-available") "output-available"
      = true := by decide
  have e2 : JVal.eqStr (JVal.vstr "output-available") "input-streaming"
      = false := by decide
  have e3 : JVal.eqStr (JVal.vstr "output-available") "input-available"
      = false := by decide
  constructor
  · rw [renderPartD_tool p h1]
    simp [renderToolD, h2, h3, e1]
  · rw [renderPartI_tool p h1]
    simp [renderToolI, h2, h3, e1, e2, e3]

/-- Witness for C10 at a concrete `output-available` part carrying an
input but no output field. -/
theorem spec_c10_missing_output_witness :
    renderPartD { ty := "tool-s", state := some (JVal.vstr "output-available"),
                  input := some (JVal.vstr "q") } =
      [View.toolCalledView "s" (JVal.vstr "q")] ∧
    renderPartI { ty := "tool-s", state := some (JVal.vstr "output-available"),
                  input := some (JVal.vstr "q") } =
      [View.inResultBox "s" none] := by
  have h := spec_c10_missing_output
    { ty := "tool-s", state := some (JVal.vstr "output-available"),
      input := some (JVal.vstr "q") }
    (by decide) rfl rfl
  exact ⟨h.1.trans rfl, h.2.trans rfl⟩

/-- C7: a tool part in state `output-error` whose `errorText` is absent,
present but undefined, empty, or otherwise falsy renders its Errored view
with the tool name and no error-text line, in both renderers (the
decomposed renderer may put its Invoking banner in front when the input
is defined, but the Errored view itself carries no error text). -/
theorem spec_c7_empty_error_text (p : RawPart)
    (h1 : jsStartsWith p.ty "tool-" = true)
    (h2 : p.state = some (JVal.vstr "output-error"))
    (h3 : fieldTruthy p.errorText = false) :
    renderPartD p =
      (if isDefinedF p.input then
        [View.toolCallView (toolNameOf p.ty) (getOpt p.input)
          (JVal.vstr "output-error")]
       else []) ++
      [View.toolErrorView (toolNameOf p.ty) none] ∧
    renderPartI p = [View.inErrorBox (toolNameOf p.ty) none] := by
  have hd : errDisplay p.errorText = none := by simp [errDisplay, h3]
  have hl : errLineI p.errorText = none := by simp [errLineI, h3]
  have e1 : JVal.eqStr (JVal.vstr "output-error") "output-available"
      = false := by decide
  have e2 : JVal.eqStr (JVal.vstr "output-error") "output-error"
      = true := by decide
  have e3 : JVal.eqStr (JVal.vstr "output-error") "input-streaming"
      = false := by decide
  have e4 : JVal.eqStr (JVal.vstr "output-error") "input-available"
      = false := by decide
  constructor
  · rw [renderPartD_tool p h1]
    simp [renderToolD, h2, e1, e2, hd]
  · rw [renderPartI_tool p h1]
    simp [renderToolI, h2, e1, e2, e3, e4, hl]

/-- Witness for C7 at the concrete part
`{type: "tool-fetch", state: "output-error", errorText: ""}`. -/
theorem spec_c7_empty_error_text_witness :
    renderPartD { ty := "tool-fetch",
                  state := some (JVal.vstr "output-error"),
                  errorText := some (JVal.vstr "") } =
      [View.toolErrorView "fetch" none] ∧
    renderPartI { ty := "tool-fetch",
                  state := some (JVal.vstr "output-error"),
                  errorText := some (JVal.vstr "") } =
      [View.inErrorBox "fetch" none] := by
  have h := spec_c7_empty_error_text
    { ty := "tool-fetch", state := some (JVal.vstr "output-error"),
      errorText := some (JVal.vstr "") }
    (by decide) rfl (by decide)
  exact ⟨h.1.trans rfl, h.2.trans rfl⟩

/-- A tool part in state `output-available` carrying neither an `input`
nor an `output` field. -/
def c1NoOutputPart : RawPart :=
  { ty := "tool-x", state := some (.vstr "output-available") }

/-- Counterexample to C1 as stated: a tool part with state
`output-available` but no `input` and no `output` field renders no view
at all in the decomposed renderer — in particular no Completed view. -/
theorem spec_c1_counterexample :
    renderPartD c1NoOutputPart = [] ∧
    (renderPartD c1NoOutputPart).map absOf = [] :=
  ⟨rfl, rfl⟩

/-- C1 (amended): a tool part with state `output-available` that carries
an `output` field renders, in the decomposed renderer, exactly the
Completed view — the input display first when the input is defined, then
the output display — with no Invoking view, regardless of the `input` it
carries; rendering the identical snapshot again yields the identical
view. -/
theorem spec_c1_output_available (p : RawPart) (ov : JVal)
    (h1 : jsStartsWith p.ty "tool-" = true)
    (h2 : p.state = some (JVal.vstr "output-available"))
    (h3 : p.output = some ov) :
    renderPartD p =
      (if isDefinedF p.input then
        [View.toolCalledView (toolNameOf p.ty) (getOpt p.input)]
       else []) ++
      [View.toolResultView (toolNameOf p.ty) ov] ∧
    (∀ v ∈ renderPartD p, absOf v ≠ AbsView.invoking) ∧
    (∀ q : RawPart, q = p → renderPartD q = renderPartD p) := by
  have e1 : JVal.eqStr (JVal.vstr "output-available") "output-available"
      = true := by decide
  have hmain : renderPartD p =
      (if isDefinedF p.input then
        [View.toolCalledView (toolNameOf p.ty) (getOpt p.input)]
       else []) ++
      [View.toolResultView (toolNameOf p.ty) ov] := by
    rw [renderPartD_tool p h1]
    simp [renderToolD, h2, h3, e1]
  refine ⟨hmain, ?_, fun q hq => hq ▸ rfl⟩
  intro v hv
  rw [hmain] at hv
  cases hdef : isDefinedF p.input <;> rw [hdef] at hv <;> simp at hv
  · subst hv
    simp [absOf]
  · rcases hv with hv | hv <;> subst hv <;> simp [absOf]

/-- Witness for the amended C1 at a concrete completed part carrying
both input and output. -/
theorem spec_c1_output_available_witness :
    renderPartD { ty := "tool-s",
                  state := some (JVal.vstr "output-available"),
                  input := some (JVal.vstr "q"),
                  output := some (JVal.vnum 1) } =
      [View.toolCalledView "s" (JVal.vstr "q"),
       View.toolResultView "s" (JVal.vnum 1)] := by
  have h := spec_c1_output_available
    { ty := "tool-s", state := some (JVal.vstr "output-available"),
      input := some (JVal.vstr "q"), output := some (JVal.vnum 1) }
    (JVal.vnum 1) (by decide) rfl rfl
  exact h.1.trans rfl

/-- A tool part in state `output-error` that still carries a populated
input. -/
def c2ErrorWithInputPart : RawPart :=
  { ty := "tool-fetch",
    state := some (.vstr "output-error"),
    input := some (.vobj [("url", .vstr "u")]),
    errorText := some (.vstr "boom") }

/-- Counterexample to C2 as stated: in the decomposed renderer a tool
part with state `output-error` and a populated `input` renders an
Invoking view in front of the Errored view, so the Errored view is not
alone and an Invoking view is shown. -/
theorem spec_c2_counterexample :
    renderPartD c2ErrorWithInputPart =
      [View.toolCallView "fetch" (JVal.vobj [("url", JVal.vstr "u")])
        (JVal.vstr "output-error"),
       View.toolErrorView "fetch" (some "boom")] ∧
    (renderPartD c2ErrorWithInputPart).map absOf =
      [AbsView.invoking, AbsView.errored] :=
  ⟨rfl, rfl⟩

/-- C2 (amended): a tool part with state `output-error` renders an
Errored view carrying the tool name and the error text when present; in
the inline renderer it is the sole view; in the decomposed renderer an
Invoking view additionally precedes it exactly when the part carries a
defined `input`. -/
theorem spec_c2_output_error (p : RawPart)
    (h1 : jsStartsWith p.ty "tool-" = true)
    (h2 : p.state = some (JVal.vstr "output-error")) :
    renderPartD p =
      (if isDefinedF p.input then
        [View.toolCallView (toolNameOf p.ty) (getOpt p.input)
          (JVal.vstr "output-error")]
       else []) ++
      [View.toolErrorView (toolNameOf p.ty) (errDisplay p.errorText)] ∧
    renderPartI p =
      [View.inErrorBox (toolNameOf p.ty) (errLineI p.errorText)] := by
  have e1 : JVal.eqStr (JVal.vstr "output-error") "output-available"
      = false := by decide
  have e2 : JVal.eqStr (JVal.vstr "output-error") "output-error"
      = true := by decide
  have e3 : JVal.eqStr (JVal.vstr "output-error") "input-streaming"
      = false := by decide
  have e4 : JVal.eqStr (JVal.vstr "output-error") "input-available"
      = false := by decide
  constructor
  · rw [renderPartD_tool p h1]
    simp [renderToolD, h2, e1, e2]
  · rw [renderPartI_tool p h1]
    simp [renderToolI, h2, e1, e2, e3, e4]

/-- Witness for the amended C2: with a defined input both views appear
in the decomposed renderer; the inline renderer shows the error box
alone. -/
theorem spec_c2_output_error_witness :
    renderPartD c2ErrorWithInputPart =
      [View.toolCallView "fetch" (JVal.vobj [("url", JVal.vstr "u")])
        (JVal.vstr "output-error"),
       View.toolErrorView "fetch" (some "boom")] ∧
    renderPartI c2ErrorWithInputPart =
      [View.inErrorBox "fetch" (some (JVal.vstr "boom"))] := by
  have h := spec_c2_output_error c2ErrorWithInputPart (by decide) rfl
  exact ⟨h.1.trans rfl, h.2.trans rfl⟩

/-- A tool part whose `state` value is outside the handled set. -/
def c3UnhandledStatePart : RawPart :=
  { ty := "tool-x", state := some (.vstr "mystery") }

/-- Counterexample to C3 as stated: a tool part carrying a `state` value
outside the handled set renders nothing at all in the decomposed
renderer — no structured dump, no view. -/
theorem spec_c3_counterexample :
    renderPartD c3UnhandledStatePart = [] :=
  rfl

/-- C3 (amended): for a tool part carrying a `state` value outside the
handled set, the inline renderer shows a visible fallback box with the
tool name and the raw state value (not a dump of the whole part), while
the decomposed renderer shows nothing for that part except an Invoking
view when the input is defined; neither renderer fails. -/
theorem spec_c3_unhandled_state (p : RawPart) (st : JVal)
    (h1 : jsStartsWith p.ty "tool-" = true)
    (h2 : p.state = some st)
    (h3 : st.eqStr "input-streaming" = false)
    (h4 : st.eqStr "input-available" = false)
    (h5 : st.eqStr "output-available" = false)
    (h6 : st.eqStr "output-error" = false)
    (h7 : st.eqStr "streaming" = false)
    (h8 : st.eqStr "done" = false) :
    renderPartD p =
      (if isDefinedF p.input then
        [View.toolCallView (toolNameOf p.ty) (getOpt p.input) st]
       else []) ∧
    renderPartI p = [View.inOtherBox (toolNameOf p.ty) st] := by
  constructor
  · rw [renderPartD_tool p h1]
    simp [renderToolD, h2, h3, h4, h5, h6, h7, h8]
  · rw [renderPartI_tool p h1]
    simp [renderToolI, h2, h3, h4, h5, h6, h7, h8]

/-- Witness for the amended C3 at the concrete unhandled state
`"mystery"` with no input. -/
theorem spec_c3_unhandled_state_witness :
    renderPartD c3UnhandledStatePart = [] ∧
    renderPartI c3UnhandledStatePart =
      [View.inOtherBox "x" (JVal.vstr "mystery")] := by
  have h := spec_c3_unhandled_state c3UnhandledStatePart
    (JVal.vstr "mystery") (by decide) rfl (by decide) (by decide)
    (by decide) (by decide) (by decide) (by decide)
  exact ⟨h.1.trans rfl, h.2.trans rfl⟩

/-- A tool part claiming state `input-available` whose `input` field is
present but `undefined`. -/
def c5UndefInputPart : RawPart :=
  { ty := "tool-x",
    state := some (.vstr "input-available"),
    input := some .vundefined }

/-- Counterexample to C5 as stated: the inline renderer does render an
Invoking banner (its tool-call box, with the tool name and no input
dump) for a tool part in state `input-available` with undefined input. -/
theorem spec_c5_counterexample :
    renderPartI c5UndefInputPart = [View.inCallBox "x" none] ∧
    (renderPartI c5UndefInputPart).map absOf = [AbsView.invoking] :=
  ⟨rfl, rfl⟩

/-- C5 (amended): for a tool part in state `input-available` or
`input-streaming` whose `input` field is absent or undefined, the
decomposed renderer renders no view at all (no Invoking banner, no
crash), while the inline renderer still renders its Invoking banner
frame with the tool name but no input dump. -/
theorem spec_c5_undefined_input (p : RawPart) (st : JVal)
    (h1 : jsStartsWith p.ty "tool-" = true)
    (h2 : p.state = some st)
    (h3 : st = JVal.vstr "input-available" ∨ st = JVal.vstr "input-streaming")
    (h4 : isDefinedF p.input = false) :
    renderPartD p = [] ∧
    renderPartI p = [View.inCallBox (toolNameOf p.ty) none] := by
  have ea1 : JVal.eqStr (JVal.vstr "input-available") "input-streaming"
      = false := by decide
  have ea2 : JVal.eqStr (JVal.vstr "input-available") "input-available"
      = true := by decide
  have ea3 : JVal.eqStr (JVal.vstr "input-available") "output-available"
      = false := by decide
  have ea4 : JVal.eqStr (JVal.vstr "input-available") "output-error"
      = false := by decide
  have ea5 : JVal.eqStr (JVal.vstr "input-available") "streaming"
      = false := by decide
  have ea6 : JVal.eqStr (JVal.vstr "input-available") "done"
      = false := by decide
  have eb1 : JVal.eqStr (JVal.vstr "input-streaming") "input-streaming"
      = true := by decide
  have eb3 : JVal.eqStr (JVal.vstr "input-streaming") "output-available"
      = false := by decide
  have eb4 : JVal.eqStr (JVal.vstr "input-streaming") "output-error"
      = false := by decide
  have eb5 : JVal.eqStr (JVal.vstr "input-streaming") "streaming"
      = false := by decide
  have eb6 : JVal.eqStr (JVal.vstr "input-streaming") "done"
      = false := by decide
  constructor
  · rw [renderPartD_tool p h1]
    rcases h3 with h3 | h3 <;> subst h3
    · simp [renderToolD, h2, h4, ea3, ea4, ea5, ea6]
    · simp [renderToolD, h2, h4, eb3, eb4, eb5, eb6]
  · rw [renderPartI_tool p h1]
    rcases h3 with h3 | h3 <;> subst h3
    · simp [renderToolI, h2, h4, ea1, ea2]
    · simp [renderToolI, h2, h4, eb1]

/-- Witness for the amended C5 at a concrete `input-available` part with
a present-but-undefined input. -/
theorem spec_c5_undefined_input_witness :
    renderPartD c5UndefInputPart = [] ∧
    renderPartI c5UndefInputPart = [View.inCallBox "x" none] := by
  have h := spec_c5_undefined_input c5UndefInputPart
    (JVal.vstr "input-available") (by decide) rfl (Or.inl rfl) (by decide)
  exact ⟨h.1, h.2.trans rfl⟩

/-- Every view the decomposed tool branch emits that displays a tool
name displays the name extracted from the part's type tag. -/
lemma renderToolD_names (p : RawPart) (v : View) (hv : v ∈ renderToolD p) :
    ∀ n, viewToolName v = some n → n = toolNameOf p.ty := by
  intro n hn
  cases hst : p.state with
  | none =>
    simp only [renderToolD, hst] at hv
    simp_all [viewToolName]
  | some st =>
    simp only [renderToolD, hst] at hv
    rcases List.mem_append.mp hv with hv | hv
    · split at hv <;> simp_all [viewToolName]
    · split at hv
      · rcases List.mem_append.mp hv with hv | hv
        · split at hv <;> simp_all [viewToolName]
        · split at hv <;> simp_all [viewToolName]
      · split at hv
        · simp_all [viewToolName]
        · split at hv <;> simp_all [viewToolName]

/-- Every view the inline tool branch emits that displays a tool name
displays the name extracted from the part's type tag. -/
lemma renderToolI_names (p : RawPart) (v : View) (hv : v ∈ renderToolI p) :
    ∀ n, viewToolName v = some n → n = toolNameOf p.ty := by
  intro n hn
  cases hst : p.state with
  | none =>
    simp only [renderToolI, hst] at hv
    simp_all
  | some st =>
    simp only [renderToolI, hst] at hv
    split at hv
    · simp_all [viewToolName]
    · split at hv
      · simp_all [viewToolName]
      · split at hv <;> simp_all [viewToolName]

/-- C6: for a part whose type is `"tool-" ++ s` with a non-empty suffix
`s`, the extracted tool name is exactly `s` — even when `s` itself
contains the substring `"tool-"`, because `replace` only removes the
first occurrence, which is the leading prefix — and every view either
renderer emits for that part displays exactly that name. -/
theorem spec_c6_tool_name (s : String) (_hs : s ≠ "") (p : RawPart)
    (hty : p.ty = "tool-" ++ s) :
    toolNameOf p.ty = s ∧
    (∀ v ∈ renderPartD p, ∀ n, viewToolName v = some n → n = s) ∧
    (∀ v ∈ renderPartI p, ∀ n, viewToolName v = some n → n = s) := by
  have hstart : jsStartsWith p.ty "tool-" = true := by
    rw [hty]
    exact jsStartsWith_tool_append s
  have hname : toolNameOf p.ty = s := by
    rw [hty]
    exact toolNameOf_tool_append s
  refine ⟨hname, ?_, ?_⟩
  · intro v hv n hn
    rw [renderPartD_tool p hstart] at hv
    rw [← hname]
    exact renderToolD_names p v hv n hn
  · intro v hv n hn
    rw [renderPartI_tool p hstart] at hv
    rw [← hname]
    exact renderToolI_names p v hv n hn

/-- Witness for C6 at the suffix `"tool-x"`, which itself contains the
substring `"tool-"`: the extracted name keeps it. -/
theorem spec_c6_tool_name_witness :
    toolNameOf "tool-tool-x" = "tool-x" ∧
    renderPartD { ty := "tool-tool-x",
                  state := some (JVal.vstr "output-error"),
                  errorText := some (JVal.vstr "e") } =
      [View.toolErrorView "tool-x" (some "e")] ∧
    renderPartI { ty := "tool-tool-x",
                  state := some (JVal.vstr "output-error"),
                  errorText := some (JVal.vstr "e") } =
      [View.inErrorBox "tool-x" (some (JVal.vstr "e"))] :=
  ⟨(spec_c6_tool_name "tool-x" (by decide)
      { ty := "tool-tool-x", state := some (JVal.vstr "output-error"),
        errorText := some (JVal.vstr "e") } rfl).1,
   rfl, rfl⟩
